/-
Verification of selected properties of the ZRTPCPP library against its
C++ sources: the Confirm packet signature-length handling
(src/zrtp/ZrtpPacketConfirm.cpp), the DHPart packet length check
(src/zrtp/libzrtpcpp/ZrtpPacketDHPart.h), the ZID cache
(src/zrtp/ZIDCacheDb.cpp), and parts of the protocol engine surface
declared in src/zrtp/libzrtpcpp/ZRtp.h.

Machine integers are modelled as Nat/Int; bytes are Nat values < 256 held
in Lists; byte-level bit operations use Nat.land/Nat.lor exactly where the
C++ code uses & and |.
-/
import Mathlib

namespace Zrtp

/-- `IDENTIFIER_LEN`: length in bytes of a ZID (ZRTP identifier), 12 bytes. -/
def IDENTIFIER_LEN : Nat := 12

/-- `ZRTP_WORD_SIZE`: a ZRTP word is 4 bytes; all message lengths are in words. -/
def ZRTP_WORD_SIZE : Nat := 4

/-- `sizeof(ConfirmPacket_t)`: the fixed part of a Confirm packet.
`ZrtpPacketConfirm::isSignatureLengthOk` documents: "Confirm packet fixed
part is 19 ZRTP words", i.e. 76 bytes (3-word ZRTP header + 16-word
Confirm body: hmac 8B, iv 16B, H0 32B, filler 2B, sigLength 1B, flags 1B,
expTime 4B). -/
def sizeofConfirmPacket : Nat := 76

/-- Bit pattern of an `int32_t` value as a natural number (two's
complement), used to model C bitwise `&` on possibly-signed operands. -/
def int32bits (v : Int) : Nat := (v % 4294967296).toNat

/-- In-memory state of a `ZrtpPacketConfirm` (fields of `Confirm_t` plus
the header length field in ZRTP words; the signature block follows
`expTime`). -/
structure ZrtpPacketConfirm where
  /-- header length field, in ZRTP words -/
  msgLength : Nat
  /-- `confirm.hmac`, 2 words -/
  hmacBytes : List Nat
  /-- `confirm.iv`, 4 words -/
  iv : List Nat
  /-- `confirm.hashH0`, 8 words -/
  hashH0 : List Nat
  /-- `confirm.filler[0]` -/
  filler0 : Nat
  /-- `confirm.filler[1]`, carries the 9th bit of the signature length -/
  filler1 : Nat
  /-- `confirm.sigLength`, a uint byte -/
  sigLength : Nat
  /-- `confirm.flags` -/
  flagsByte : Nat
  /-- `confirm.expTime`, 1 word -/
  expTime : Nat
  /-- the signature block, located directly after `expTime` -/
  sigData : List Nat
  deriving DecidableEq, Repr

/-- The all-zero packet produced by `ZrtpPacketConfirm::initialize`
(`memset(allocated, 0, sizeof(data))`). -/
def zeroConfirm : ZrtpPacketConfirm :=
  { msgLength := 0, hmacBytes := List.replicate 8 0, iv := List.replicate 16 0,
    hashH0 := List.replicate 32 0, filler0 := 0, filler1 := 0,
    sigLength := 0, flagsByte := 0, expTime := 0, sigData := [] }

/-- `ZrtpPacketConfirm::setSignatureLength(int32_t sl)`:
rejects `sl > 512`; otherwise stores the low byte of `sl` into
`sigLength`, sets `filler[1]` to 1 when bit 8 (`0x100`) of `sl` is set
(and leaves `filler[1]` untouched otherwise), and sets the header length
to `(sizeof(ConfirmPacket_t) + sl*ZRTP_WORD_SIZE) / 4` words.
Returns the C++ `bool` result together with the updated packet. -/
def setSignatureLength (sl : Int) (p : ZrtpPacketConfirm) :
    Bool × ZrtpPacketConfirm :=
  if sl > 512 then (false, p)
  else
    (true,
      { p with
        sigLength := int32bits sl &&& 0xff
        filler1 := if int32bits sl &&& 0x100 ≠ 0 then 1 else p.filler1
        msgLength := (76 + sl * 4).toNat / 4 })

/-- `ZrtpPacketConfirm::getSignatureLength()`: the `sigLength` byte,
or-ed with `0x100` when `filler[1] == 1`. -/
def getSignatureLength (p : ZrtpPacketConfirm) : Nat :=
  if p.filler1 = 1 then (p.sigLength &&& 0xff) ||| 0x100
  else p.sigLength &&& 0xff

/-- The packet built by the default constructor `ZrtpPacketConfirm()`:
`initialize()` (all zero) followed by `setSignatureLength(0)`. -/
def confirmCtor : ZrtpPacketConfirm := (setSignatureLength 0 zeroConfirm).2

/-- `ZrtpPacketConfirm::setSignatureData(const uint8_t* data, int32_t length)`:
with `l = getSignatureLength() * 4`, rejects `length > l` or
`length % 4 != 0` without touching the packet; otherwise copies `length`
bytes from the input into the signature block (directly after `expTime`). -/
def setSignatureData (dataIn : List Nat) (length : Int)
    (p : ZrtpPacketConfirm) : Bool × ZrtpPacketConfirm :=
  if length > (getSignatureLength p : Int) * 4 ∨ length % 4 ≠ 0 then
    (false, p)
  else
    (true,
      { p with
        sigData := dataIn.take length.toNat ++ p.sigData.drop length.toNat })

/-- `ZrtpPacketConfirm::isSignatureLengthOk()`: the header length must
equal the 19-word fixed part plus the signature length in words. -/
def isSignatureLengthOk (p : ZrtpPacketConfirm) : Bool :=
  19 + getSignatureLength p == p.msgLength

/-! ### ZID cache (`ZIDCacheDb`, src/zrtp/ZIDCacheDb.cpp)

The SQLite backend behind `cacheOps` is not part of the sources; it is
modelled as association lists keyed by the peer ZID: `remoteRecords` holds
the remote-ZID records, `nameRecords` the peer-name records (flags plus
name). -/

/-- Key lookup in an association list (models a keyed read from the cache
backend: `readRemoteZidRecord` / `readZidNameRecord`). -/
def findByKey {α : Type} : List (List Nat × α) → List Nat → Option α
  | [], _ => none
  | (k, v) :: t, z => if k = z then some v else findByKey t z

/-- Keyed insert-or-replace in an association list (models
`insertRemoteZidRecord` / `updateRemoteZidRecord` and the name-record
variants: the backend keeps at most one row per key). -/
def upsertByKey {α : Type} : List (List Nat × α) → List Nat → α → List (List Nat × α)
  | [], z, v => [(z, v)]
  | (k, w) :: t, z, v => if k = z then (z, v) :: t else (k, w) :: upsertByKey t z v

/-- The `Valid` flag bit of cache records (flags bitset: Valid,
SASVerified, RS1Valid, RS2Valid — `Valid` is the least bit). -/
def ValidFlag : Nat := 1

/-- One remote-ZID record (`remoteZidRecord_t`), following the persisted
layout: identifier (12B), flags, RS1/RS2 with lastUse and ttl, MitM key
with lastUse, secureSince. -/
structure RemoteZidRecord where
  identifier : List Nat
  flags : Nat
  rs1 : List Nat
  rs1LastUse : Int
  rs1Ttl : Int
  rs2 : List Nat
  rs2LastUse : Int
  rs2Ttl : Int
  mitmKey : List Nat
  mitmLastUse : Int
  secureSince : Int
  deriving DecidableEq, Repr

/-- The default-constructed (zero-filled) `ZIDRecordDb` record data. -/
def emptyRemoteZidRecord : RemoteZidRecord :=
  { identifier := List.replicate IDENTIFIER_LEN 0, flags := 0,
    rs1 := List.replicate 32 0, rs1LastUse := 0, rs1Ttl := 0,
    rs2 := List.replicate 32 0, rs2LastUse := 0, rs2Ttl := 0,
    mitmKey := List.replicate 32 0, mitmLastUse := 0, secureSince := 0 }

/-- `ZIDRecordDb::isValid()`: the `Valid` bit of the flags is set. -/
def RemoteZidRecord.isValid (r : RemoteZidRecord) : Bool :=
  r.flags &&& ValidFlag == ValidFlag

/-- `ZIDRecordDb::setValid()`: set the `Valid` bit. -/
def RemoteZidRecord.setValid (r : RemoteZidRecord) : RemoteZidRecord :=
  { r with flags := r.flags ||| ValidFlag }

/-- `ZIDRecordDb::setZid(zid)`: store the peer ZID in the record. -/
def RemoteZidRecord.setZid (r : RemoteZidRecord) (zid : List Nat) : RemoteZidRecord :=
  { r with identifier := zid }

/-- In-memory state of a `ZIDCacheDb`: the open backend handle (if any),
the stored file name, the local ZID (`associatedZid`), and the backend's
two record stores. -/
structure ZIDCacheDb where
  zidFile : Option Nat
  fileName : String
  associatedZid : List Nat
  remoteRecords : List (List Nat × RemoteZidRecord)
  nameRecords : List (List Nat × (Nat × List Char))
  deriving DecidableEq, Repr

/-- `memcmp(a, b, IDENTIFIER_LEN) == 0`: the first 12 bytes agree. -/
def zidEqual (a b : List Nat) : Bool :=
  decide (a.take IDENTIFIER_LEN = b.take IDENTIFIER_LEN)

/-- `ZIDCacheDb::open(char* name)`: if a ZID file is already active,
return 0 at once; otherwise store the file name and ask the backend to
open the cache. The backend outcome is the parameter `backendResult`
(`some (handle, localZid)` when `openCache` returns 0 and `readLocalZid`
yields the local ZID; `none` when `openCache` fails, in which case the
handle is cleared). Returns `-1` when the handle is null afterwards,
else `1`. -/
def ZIDCacheDb.openDb (name : String) (backendResult : Option (Nat × List Nat))
    (s : ZIDCacheDb) : Int × ZIDCacheDb :=
  if s.zidFile.isSome then (0, s)
  else
    match backendResult with
    | some (h, z) =>
        (1, { s with fileName := name, zidFile := some h, associatedZid := z })
    | none => (-1, { s with fileName := name, zidFile := none })

/-- `ZIDCacheDb::getRecord(unsigned char *zid)` at time `now`
(`time(nullptr)`): refuse the local ZID with an empty pointer; otherwise
read the remote record (default-constructed when absent), store the
requested ZID in it, and if it is not valid, make it valid, stamp
`secureSince := now` and insert it into the backend. Returns the record
pointer and the updated cache. -/
def ZIDCacheDb.getRecord (zid : List Nat) (now : Int) (s : ZIDCacheDb) :
    Option RemoteZidRecord × ZIDCacheDb :=
  if zidEqual s.associatedZid zid then (none, s)
  else
    let rec0 := (findByKey s.remoteRecords zid).getD emptyRemoteZidRecord
    let rec1 := rec0.setZid zid
    if ¬ rec1.isValid then
      let rec2 := { rec1.setValid with secureSince := now }
      (some rec2, { s with remoteRecords := upsertByKey s.remoteRecords zid rec2 })
    else
      (some rec1, s)

/-- `ZIDCacheDb::getPeerName(const uint8_t *peerZid, std::string *name)`:
read the name record (the read buffer holds at most 200 characters); when
its `Valid` flag is unset return 0 and no name, otherwise return the name
and its length. -/
def ZIDCacheDb.getPeerName (peerZid : List Nat) (s : ZIDCacheDb) :
    Nat × Option (List Char) :=
  match findByKey s.nameRecords peerZid with
  | none => (0, none)
  | some (fl, nm) =>
      if fl &&& ValidFlag ≠ ValidFlag then (0, none)
      else ((nm.take 200).length, some (nm.take 200))

/-- `ZIDCacheDb::putPeerName(const uint8_t *peerZid, const std::string& name)`:
read the existing name record to learn its flags (0 when absent), cap the
stored length at 200 characters, then insert a fresh `Valid` record when
none was valid, else update the existing one (keeping its flags). -/
def ZIDCacheDb.putPeerName (peerZid : List Nat) (name : List Char)
    (s : ZIDCacheDb) : ZIDCacheDb :=
  let oldFlags := ((findByKey s.nameRecords peerZid).map Prod.fst).getD 0
  let stored := name.take 200
  if oldFlags &&& ValidFlag ≠ ValidFlag then
    { s with nameRecords := upsertByKey s.nameRecords peerZid (ValidFlag, stored) }
  else
    { s with nameRecords := upsertByKey s.nameRecords peerZid (oldFlags, stored) }

/-! ### Protocol engine surface (`ZRtp`, src/zrtp/libzrtpcpp/ZRtp.h) -/

/-- The part of the `ZRtp` session state needed here: the peer's ZID
(`secUtilities::SecureArray<IDENTIFIER_LEN>`, filled from the peer's
Hello). -/
structure ZRtpSession where
  peerZid : List Nat
  deriving DecidableEq, Repr

/-- `ZRtp::getPeerZid(uint8_t* data)`: `memcpy(data, peerZid.data(),
IDENTIFIER_LEN)` then `return IDENTIFIER_LEN` — the first 12 bytes of the
caller's buffer are overwritten with the peer ZID, the rest is untouched. -/
def ZRtpSession.getPeerZid (s : ZRtpSession) (data : List Nat) :
    List Nat × Int :=
  (s.peerZid.take IDENTIFIER_LEN ++ data.drop IDENTIFIER_LEN,
   (IDENTIFIER_LEN : Int))

/-- In-memory state of a `ZrtpPacketDHPart`; only the header length field
matters for the length check. -/
structure ZrtpPacketDHPart where
  /-- header length field, in ZRTP words -/
  msgLength : Nat
  /-- H1 hash image -/
  hashH1 : List Nat
  /-- public key value -/
  pv : List Nat
  deriving DecidableEq, Repr

/-- `ZrtpPacketDHPart::getLength()`: the header length field in words. -/
def ZrtpPacketDHPart.getLength (p : ZrtpPacketDHPart) : Nat := p.msgLength

/-- `ZrtpPacketDHPart::isLengthOk()`: `getLength() >= 29` (DHPart packets
are 29 words at minimum, using E255). -/
def ZrtpPacketDHPart.isLengthOk (p : ZrtpPacketDHPart) : Bool :=
  decide (29 ≤ p.getLength)

/-! ### Retransmission timer tuning (spec-modelled)

The bodies of `ZRtp::setT1Resend`, `setT1Capping`, `setT2Resend` and
`setT2Capping` live in ZRtp.cpp, which is not among the sources; only
their declarations and doc comments in ZRtp.h are. The setters are
modelled from those doc comments and spec §4.6. -/

/-- The tunable retransmission parameters with their defaults (spec §4.6:
T1 — 20 resends, cap 200 ms; T2 — 10 resends, cap 1200 ms). A negative
resend counter means "resend indefinitely". -/
structure ZrtpTimers where
  t1Resend : Int := 20
  t1Capping : Int := 200
  t2Resend : Int := 10
  t2Capping : Int := 1200
  deriving DecidableEq, Repr

/-- Modelled from the spec: the body of `ZRtp::setT1Resend(int32_t counter)`
is not under the sources; its ZRtp.h doc comment says "Setting to <0 means
'indefinite', counter values less then 10 are ignored". So a negative
counter is stored (indefinite resending), values 0..9 are ignored, larger
values are stored. -/
def setT1Resend (counter : Int) (s : ZrtpTimers) : ZrtpTimers :=
  if counter < 0 then { s with t1Resend := counter }
  else if counter < 10 then s
  else { s with t1Resend := counter }

/-- Modelled from the spec: the body of `ZRtp::setT2Resend(int32_t counter)`
is not under the sources; its ZRtp.h doc comment matches `setT1Resend`'s
("<0 means 'indefinite', counter values less then 10 are ignored"). -/
def setT2Resend (counter : Int) (s : ZrtpTimers) : ZrtpTimers :=
  if counter < 0 then { s with t2Resend := counter }
  else if counter < 10 then s
  else { s with t2Resend := counter }

/-- Modelled from the spec: the body of `ZRtp::setT1Capping(int32_t capping)`
is not under the sources; its ZRtp.h doc comment says "Values <50ms are
not set". -/
def setT1Capping (capping : Int) (s : ZrtpTimers) : ZrtpTimers :=
  if capping < 50 then s else { s with t1Capping := capping }

/-- Modelled from the spec: the body of `ZRtp::setT2Capping(int32_t capping)`
is not under the sources; its ZRtp.h doc comment says "Values <150ms are
not set". -/
def setT2Capping (capping : Int) (s : ZrtpTimers) : ZrtpTimers :=
  if capping < 150 then s else { s with t2Capping := capping }

/-! ### Commit collision arbitration (spec-modelled)

`ZRtp::compareCommit` and the state machine that reacts to its result are
in ZRtp.cpp / ZrtpStateClass.cpp, which are not among the sources; only
the declaration with its contract in ZRtp.h is ("<0 if our Commit packet
is 'less important', >0 if our Commit is 'more important', 0 shouldn't
happen"). They are modelled from that contract and spec §4.6. -/

/-- Byte-wise comparison of two equal-length byte strings, negative /
zero / positive like `memcmp`; on 32-byte hvi values this is exactly the
big-endian integer comparison the spec prescribes. -/
def memcmpBytes : List Nat → List Nat → Int
  | [], _ => 0
  | _ :: _, [] => 0
  | a :: as, b :: bs =>
      if a < b then -1 else if b < a then 1 else memcmpBytes as bs

/-- Modelled from the spec: `ZRtp::compareCommit` (body not under the
sources) compares the local Commit's hvi with the received Commit's hvi
as big-endian integers, returning <0 / 0 / >0. -/
def compareCommit (ownHvi peerHvi : List Nat) : Int :=
  memcmpBytes ownHvi peerHvi

/-- Outcome of a Commit collision: keep the Initiator role, fall back to
the responder path, or — on equal hvi values — emit an Error and fail. -/
inductive CommitResolution where
  | initiator
  | responder
  | errorFail
  deriving DecidableEq, Repr

/-- Modelled from the spec: the state machine's role arbitration when
both sides have sent a Commit (ZrtpStateClass.cpp is not under the
sources). Spec §4.6: the higher hvi wins the Initiator role, the loser
takes the responder path, and a tie is a protocol violation — emit Error
and transition to Fail. -/
def resolveCommitCollision (ownHvi peerHvi : List Nat) : CommitResolution :=
  let c := compareCommit ownHvi peerHvi
  if c = 0 then .errorFail
  else if 0 < c then .initiator
  else .responder

/-! ## Theorems -/

set_option maxRecDepth 8192 in
/-- C1, counterexample: at `sl = 512` the claim fails —
`setSignatureLength(512)` returns `true` (the guard only rejects
`sl > 512`), but 512 does not fit into 8 bits plus the 9th-bit filler
flag, so `getSignatureLength()` on the resulting packet returns 0, not
512. -/
theorem confirm_sigLength_512_counterexample :
    (setSignatureLength 512 confirmCtor).1 = true ∧
    getSignatureLength (setSignatureLength 512 confirmCtor).2 = 0 ∧
    ¬ getSignatureLength (setSignatureLength 512 confirmCtor).2 = 512 := by
  decide

set_option maxRecDepth 8192 in
/-- C1 (amended): for every signature length `sl` with 0 ≤ sl ≤ 511,
`ZrtpPacketConfirm::setSignatureLength(sl)` returns `true` and a
subsequent `getSignatureLength()` on the same packet (whose filler byte
was still clear, as after construction) returns `sl`, with the low 8 bits
stored in the `sigLength` byte and the 9th bit packed into the filler
byte. (`setSignatureLength(512)` also returns `true`, but the round trip
then fails, see the counterexample.) -/
theorem confirm_sigLength_roundtrip (sl : Int) (p : ZrtpPacketConfirm)
    (h0 : 0 ≤ sl) (h1 : sl ≤ 511) (hf : p.filler1 = 0) :
    (setSignatureLength sl p).1 = true ∧
    getSignatureLength (setSignatureLength sl p).2 = sl.toNat ∧
    (setSignatureLength sl p).2.sigLength = sl.toNat &&& 0xff ∧
    (setSignatureLength sl p).2.filler1 = (if sl.toNat &&& 0x100 ≠ 0 then 1 else 0) := by
  obtain ⟨n, rfl⟩ := Int.eq_ofNat_of_zero_le h0
  have hbits : int32bits (n : Int) = n := by
    unfold int32bits; omega
  have htn : ((n : Int)).toNat = n := by omega
  have hng : ¬ ((n : Int) > 512) := by
    have := h1; omega
  rw [htn]
  simp only [setSignatureLength, if_neg hng, getSignatureLength, hbits, hf]
  refine ⟨trivial, ?_, trivial, trivial⟩
  have key : ∀ m : Nat, m < 512 →
      ((if (if (m &&& 256) ≠ 0 then (1:Nat) else 0) = 1
        then ((m &&& 255) &&& 255) ||| 256 else ((m &&& 255) &&& 255)) = m) := by
    decide
  have h1n : n ≤ 511 := by exact_mod_cast h1
  exact key n (by omega)

/-- C1, witness: the round trip at the concrete length 257 (9th bit set)
on a freshly constructed Confirm packet. -/
theorem confirm_sigLength_roundtrip_witness :
    (0 : Int) ≤ 257 ∧ (257 : Int) ≤ 511 ∧ confirmCtor.filler1 = 0 ∧
    getSignatureLength (setSignatureLength 257 confirmCtor).2 = (257 : Int).toNat :=
  ⟨by decide, by decide, by decide,
   (confirm_sigLength_roundtrip 257 confirmCtor (by decide) (by decide) (by decide)).2.1⟩

/-- C8: `ZrtpPacketConfirm::setSignatureData(data, length)` returns
`false` — touching nothing — whenever `length` exceeds 4 times the stored
signature length (in words) or is not a multiple of 4; otherwise it
returns `true` and copies exactly `length` bytes into the signature block
right after the expiry field, leaving the rest of the block alone. -/
theorem setSignatureData_guard (p : ZrtpPacketConfirm) (dataIn : List Nat) (length : Int)
    (hd : length.toNat ≤ dataIn.length) :
    (((getSignatureLength p : Int) * 4 < length ∨ length % 4 ≠ 0) →
      setSignatureData dataIn length p = (false, p)) ∧
    (0 ≤ length → length ≤ (getSignatureLength p : Int) * 4 → length % 4 = 0 →
      (setSignatureData dataIn length p).1 = true ∧
      (setSignatureData dataIn length p).2.sigData.take length.toNat
        = dataIn.take length.toNat ∧
      (setSignatureData dataIn length p).2.sigData.drop length.toNat
        = p.sigData.drop length.toNat) := by
  constructor
  · intro h
    simp only [setSignatureData]
    rw [if_pos]
    exact h
  · intro h0 hle hmod
    have hguard : ¬ ((getSignatureLength p : Int) * 4 < length ∨ length % 4 ≠ 0) := by
      push_neg
      exact ⟨hle, hmod⟩
    simp only [setSignatureData, if_neg hguard]
    have hlen : (dataIn.take length.toNat).length = length.toNat := by
      simp [Nat.min_eq_left hd]
    exact ⟨trivial, List.take_left' hlen, List.drop_left' hlen⟩

/-- C8, witness: copying a 4-byte signature into a Confirm packet whose
signature length is 1 word succeeds. -/
theorem setSignatureData_guard_witness :
    ((4 : Int).toNat ≤ ([1,2,3,4] : List Nat).length) ∧
    (0 : Int) ≤ 4 ∧
    (4 : Int) ≤ (getSignatureLength (setSignatureLength 1 confirmCtor).2 : Int) * 4 ∧
    (4 : Int) % 4 = 0 ∧
    (setSignatureData [1,2,3,4] 4 (setSignatureLength 1 confirmCtor).2).1 = true :=
  ⟨by decide, by decide, by decide, by decide,
   ((setSignatureData_guard (setSignatureLength 1 confirmCtor).2 [1,2,3,4] 4
      (by decide)).2 (by decide) (by decide) (by decide)).1⟩

/-- C9: `ZrtpPacketDHPart::isLengthOk` returns `true` if and only if the
packet's length field is at least 29 ZRTP words. -/
theorem dhpart_isLengthOk_iff (p : ZrtpPacketDHPart) :
    p.isLengthOk = true ↔ 29 ≤ p.getLength := by
  simp [ZrtpPacketDHPart.isLengthOk]

/-- A keyed read after a keyed insert-or-replace finds the stored value. -/
theorem findByKey_upsertByKey {α : Type} (l : List (List Nat × α)) (z : List Nat) (v : α) :
    findByKey (upsertByKey l z v) z = some v := by
  induction l with
  | nil => simp [upsertByKey, findByKey]
  | cons h t ih =>
      obtain ⟨k, w⟩ := h
      by_cases hk : k = z
      · simp [upsertByKey, findByKey, hk]
      · simp [upsertByKey, findByKey, hk, ih]

/-- A concrete local ZID used to witness the cache theorems. -/
def sampleZid : List Nat := [1, 2, 3, 4, 5, 6, 7, 8, 9, 10, 11, 12]

/-- A concrete peer ZID, distinct from `sampleZid`. -/
def samplePeerZid : List Nat := [21, 22, 23, 24, 25, 26, 27, 28, 29, 30, 31, 32]

/-- A concrete opened cache (local ZID `sampleZid`, no records yet). -/
def sampleCache : ZIDCacheDb :=
  { zidFile := some 1, fileName := "zid.dat", associatedZid := sampleZid,
    remoteRecords := [], nameRecords := [] }

/-- C2: `ZIDCacheDb::getRecord(zid)` with `zid` byte-equal to the cache's
own local ZID returns the empty record pointer and leaves the whole cache
(records included) unchanged. -/
theorem getRecord_local_zid_refused (s : ZIDCacheDb) (zid : List Nat) (now : Int)
    (h : zidEqual s.associatedZid zid = true) :
    s.getRecord zid now = (none, s) := by
  simp [ZIDCacheDb.getRecord, h]

/-- C2, witness: asking `sampleCache` for its own local ZID. -/
theorem getRecord_local_zid_refused_witness :
    zidEqual sampleCache.associatedZid sampleZid = true ∧
    sampleCache.getRecord sampleZid 1000 = (none, sampleCache) :=
  ⟨by decide, getRecord_local_zid_refused sampleCache sampleZid 1000 (by decide)⟩

/-- C3: for a peer ZID different from the local ZID: when no valid record
is stored, `getRecord` returns a record with the `Valid` flag set, the
requested ZID and `secureSince = now`, and inserts exactly this record
into the cache; when a valid record is stored (keyed, as always, under
its own ZID), `getRecord` returns it unmodified and changes nothing. -/
theorem getRecord_peer_zid (s : ZIDCacheDb) (zid : List Nat) (now : Int)
    (h : zidEqual s.associatedZid zid = false) :
    ((∀ r, findByKey s.remoteRecords zid = some r → r.isValid = false) →
      ∃ rec2,
        s.getRecord zid now
          = (some rec2, { s with remoteRecords := upsertByKey s.remoteRecords zid rec2 }) ∧
        rec2.isValid = true ∧ rec2.identifier = zid ∧ rec2.secureSince = now) ∧
    (∀ r, findByKey s.remoteRecords zid = some r → r.isValid = true →
      r.identifier = zid → s.getRecord zid now = (some r, s)) := by
  constructor
  · intro hall
    cases hfind : findByKey s.remoteRecords zid with
    | none =>
        refine ⟨{ (emptyRemoteZidRecord.setZid zid).setValid with secureSince := now },
          ?_, ?_, ?_, rfl⟩
        · simp [ZIDCacheDb.getRecord, h, hfind, RemoteZidRecord.isValid,
            RemoteZidRecord.setZid, RemoteZidRecord.setValid, emptyRemoteZidRecord, ValidFlag]
        · simp [RemoteZidRecord.isValid, RemoteZidRecord.setValid, RemoteZidRecord.setZid,
            emptyRemoteZidRecord, ValidFlag]
        · rfl
    | some r =>
        have hr := hall r hfind
        refine ⟨{ ((r.setZid zid).setValid) with secureSince := now }, ?_, ?_, ?_, rfl⟩
        · simp [ZIDCacheDb.getRecord, h, hfind, RemoteZidRecord.isValid,
            RemoteZidRecord.setZid, RemoteZidRecord.setValid] at hr ⊢
          simp [hr]
        · simp [RemoteZidRecord.isValid, RemoteZidRecord.setValid, RemoteZidRecord.setZid,
            ValidFlag, Nat.and_one_is_mod, Nat.lor_comm]
        · rfl
  · intro r hfind hvalid hid
    have hsz : r.setZid zid = r := by
      cases r
      simp_all [RemoteZidRecord.setZid]
    simp [ZIDCacheDb.getRecord, h, hfind, hsz, hvalid]

/-- C3, witness: a fresh peer ZID on the empty `sampleCache` yields a
freshly inserted `Valid` record carrying that ZID and `secureSince = 7`. -/
theorem getRecord_peer_zid_witness :
    zidEqual sampleCache.associatedZid samplePeerZid = false ∧
    ∃ rec2,
      sampleCache.getRecord samplePeerZid 7
        = (some rec2,
           { sampleCache with
             remoteRecords := upsertByKey sampleCache.remoteRecords samplePeerZid rec2 }) ∧
      rec2.isValid = true ∧ rec2.identifier = samplePeerZid ∧ rec2.secureSince = 7 :=
  ⟨by decide,
   (getRecord_peer_zid sampleCache samplePeerZid 7 (by decide)).1
     (fun r hr => by simp [sampleCache, findByKey] at hr)⟩

/-- C6: once `ZIDCacheDb::open` has succeeded (the file handle is
non-null), any further `open(name)` — with any name and regardless of
what the backend would do — returns 0 immediately and leaves the whole
cache state (handle, stored file name, local ZID, records) unchanged. -/
theorem openDb_idempotent (s : ZIDCacheDb) (name : String)
    (backendResult : Option (Nat × List Nat)) (h : s.zidFile.isSome = true) :
    s.openDb name backendResult = (0, s) := by
  simp [ZIDCacheDb.openDb, h]

/-- C6, witness: re-opening the already-open `sampleCache` under a
different name is a no-op. -/
theorem openDb_idempotent_witness :
    sampleCache.zidFile.isSome = true ∧
    sampleCache.openDb "other-name.dat" none = (0, sampleCache) :=
  ⟨by decide, openDb_idempotent sampleCache "other-name.dat" none (by decide)⟩

/-- C7: `ZRtp::getPeerZid(data)` copies exactly the 12 bytes
(`IDENTIFIER_LEN`) of the peer's ZID into the start of the caller's
buffer — leaving the remainder untouched — and returns 12. -/
theorem getPeerZid_copies_identifier (s : ZRtpSession) (data : List Nat)
    (hz : s.peerZid.length = IDENTIFIER_LEN) (hd : IDENTIFIER_LEN ≤ data.length) :
    (s.getPeerZid data).2 = 12 ∧
    (s.getPeerZid data).1.take 12 = s.peerZid ∧
    (s.getPeerZid data).1.drop 12 = data.drop 12 ∧
    (s.getPeerZid data).1.length = data.length := by
  have htake : s.peerZid.take IDENTIFIER_LEN = s.peerZid := by
    rw [← hz, List.take_length]
  have hz12 : s.peerZid.length = 12 := hz
  have hd12 : 12 ≤ data.length := hd
  refine ⟨rfl, ?_, ?_, ?_⟩
  · show (s.peerZid.take IDENTIFIER_LEN ++ data.drop IDENTIFIER_LEN).take 12 = s.peerZid
    rw [htake]
    exact List.take_left' hz
  · show (s.peerZid.take IDENTIFIER_LEN ++ data.drop IDENTIFIER_LEN).drop 12 = data.drop 12
    rw [htake]
    have h' := @List.drop_left' Nat s.peerZid (data.drop IDENTIFIER_LEN) IDENTIFIER_LEN hz
    simpa [IDENTIFIER_LEN] using h'
  · show (s.peerZid.take IDENTIFIER_LEN ++ data.drop IDENTIFIER_LEN).length = data.length
    rw [htake]
    simp [List.length_append, hz12, List.length_drop, IDENTIFIER_LEN]
    omega

/-- C7, witness: a session holding `samplePeerZid` fills a 16-byte buffer
and reports 12 copied bytes. -/
theorem getPeerZid_copies_identifier_witness :
    ({ peerZid := samplePeerZid } : ZRtpSession).peerZid.length = IDENTIFIER_LEN ∧
    IDENTIFIER_LEN ≤ (List.replicate 16 0 : List Nat).length ∧
    (({ peerZid := samplePeerZid } : ZRtpSession).getPeerZid (List.replicate 16 0)).2 = 12 :=
  ⟨by decide, by decide,
   (getPeerZid_copies_identifier { peerZid := samplePeerZid } (List.replicate 16 0)
      (by decide) (by decide)).1⟩

/-- C10: `ZIDCacheDb::putPeerName` stores at most 200 characters of the
supplied name (a longer name is truncated to its first 200 characters),
so a subsequent `getPeerName` for that peer ZID returns exactly the
truncated name, of length at most 200. -/
theorem putPeerName_truncates (s : ZIDCacheDb) (peerZid : List Nat) (name : List Char) :
    (ZIDCacheDb.getPeerName peerZid (s.putPeerName peerZid name)).2
      = some (name.take 200) ∧
    (ZIDCacheDb.getPeerName peerZid (s.putPeerName peerZid name)).1
      = (name.take 200).length ∧
    (name.take 200).length ≤ 200 := by
  by_cases hm : (((findByKey s.nameRecords peerZid).map Prod.fst).getD 0) % 2 = 0
  · simp [ZIDCacheDb.putPeerName, ZIDCacheDb.getPeerName, ValidFlag, hm,
      findByKey_upsertByKey, List.take_take]
  · simp [ZIDCacheDb.putPeerName, ZIDCacheDb.getPeerName, ValidFlag, hm,
      findByKey_upsertByKey, List.take_take]

/-- On equal-length byte strings the memcmp-style comparison is zero
exactly at equality. -/
theorem memcmpBytes_zero_iff : ∀ (a b : List Nat), a.length = b.length →
    (memcmpBytes a b = 0 ↔ a = b)
  | [], [], _ => by simp [memcmpBytes]
  | [], _ :: _, h => by simp at h
  | _ :: _, [], h => by simp at h
  | a :: as, b :: bs, h => by
      have hlen : as.length = bs.length := by simpa using h
      have ih := memcmpBytes_zero_iff as bs hlen
      by_cases h1 : a < b
      · rw [memcmpBytes, if_pos h1]
        constructor
        · intro hc
          exact absurd hc (by decide)
        · intro hc
          cases hc
          exact absurd h1 (lt_irrefl _)
      · by_cases h2 : b < a
        · rw [memcmpBytes, if_neg h1, if_pos h2]
          constructor
          · intro hc
            exact absurd hc (by decide)
          · intro hc
            cases hc
            exact absurd h2 (lt_irrefl _)
        · have heq : a = b := by omega
          subst heq
          rw [memcmpBytes, if_neg h1, if_neg h2]
          simpa using ih

/-- Swapping the arguments of the memcmp-style comparison negates it. -/
theorem memcmpBytes_antisymm : ∀ (a b : List Nat), memcmpBytes b a = - memcmpBytes a b
  | [], [] => by simp [memcmpBytes]
  | [], _ :: _ => by simp [memcmpBytes]
  | _ :: _, [] => by simp [memcmpBytes]
  | a :: as, b :: bs => by
      by_cases h1 : a < b
      · have h2 : ¬ b < a := by omega
        simp [memcmpBytes, h1, h2]
      · by_cases h2 : b < a
        · simp [memcmpBytes, h1, h2]
        · simp [memcmpBytes, h1, h2, memcmpBytes_antisymm as bs]

/-- The strict "less important" relation induced by the memcmp-style
comparison is transitive. -/
theorem memcmpBytes_lt_trans : ∀ (a b c : List Nat),
    memcmpBytes a b < 0 → memcmpBytes b c < 0 → memcmpBytes a c < 0
  | [], _, _ => by
      intro h1 _
      simp [memcmpBytes] at h1
  | _ :: _, [], _ => by
      intro h1 _
      simp [memcmpBytes] at h1
  | _ :: _, _ :: _, [] => by
      intro _ h2
      simp [memcmpBytes] at h2
  | a :: as, b :: bs, c :: cs => by
      intro h1 h2
      rw [memcmpBytes] at h1 h2 ⊢
      split_ifs at h1 h2 ⊢ <;> first
        | omega
        | exact memcmpBytes_lt_trans as bs cs h1 h2

/-- C4: on equal-length hvi values, `compareCommit` yields 0 exactly when
the two hvi values are equal, and the engine then emits an Error and goes
to Fail instead of silently continuing; on non-equal values the
comparison is strictly negative or strictly positive, antisymmetric and
transitive (a strict total order), and the side with the higher hvi takes
the Initiator role while the other falls back to the responder path. -/
theorem commit_hvi_total_order (a b : List Nat) (h : a.length = b.length) :
    (compareCommit a b = 0 ↔ a = b) ∧
    (a = b → resolveCommitCollision a b = CommitResolution.errorFail) ∧
    (a ≠ b → compareCommit a b < 0 ∨ 0 < compareCommit a b) ∧
    (compareCommit b a = - compareCommit a b) ∧
    (∀ c, compareCommit a b < 0 → compareCommit b c < 0 → compareCommit a c < 0) ∧
    (0 < compareCommit a b →
      resolveCommitCollision a b = CommitResolution.initiator ∧
      resolveCommitCollision b a = CommitResolution.responder) ∧
    (compareCommit a b < 0 → resolveCommitCollision a b = CommitResolution.responder) := by
  have hiff := memcmpBytes_zero_iff a b h
  refine ⟨hiff, ?_, ?_, memcmpBytes_antisymm a b,
    fun c => memcmpBytes_lt_trans a b c, ?_, ?_⟩
  · intro hab
    have h0 : memcmpBytes a b = 0 := hiff.2 hab
    simp [resolveCommitCollision, compareCommit, h0]
  · intro hne
    rcases lt_trichotomy (memcmpBytes a b) 0 with h' | h' | h'
    · exact Or.inl h'
    · exact absurd (hiff.1 h') hne
    · exact Or.inr h'
  · intro hpos
    have hpos' : 0 < memcmpBytes a b := hpos
    have h0 : ¬ memcmpBytes a b = 0 := by omega
    have hneg : memcmpBytes b a < 0 := by
      rw [memcmpBytes_antisymm a b]
      omega
    have h0' : ¬ memcmpBytes b a = 0 := by omega
    have hnp : ¬ 0 < memcmpBytes b a := by omega
    constructor
    · simp [resolveCommitCollision, compareCommit, h0, hpos']
    · simp [resolveCommitCollision, compareCommit, h0', hnp]
  · intro hneg
    have hneg' : memcmpBytes a b < 0 := hneg
    have h0 : ¬ memcmpBytes a b = 0 := by omega
    have hnp : ¬ 0 < memcmpBytes a b := by omega
    simp [resolveCommitCollision, compareCommit, h0, hnp]

/-- C4, witness: two concrete non-equal hvi values compare strictly. -/
theorem commit_hvi_total_order_witness :
    ([1, 2] : List Nat).length = ([1, 3] : List Nat).length ∧
    (([1, 2] : List Nat) ≠ [1, 3] →
      compareCommit [1, 2] [1, 3] < 0 ∨ 0 < compareCommit [1, 2] [1, 3]) :=
  ⟨rfl, (commit_hvi_total_order [1, 2] [1, 3] rfl).2.2.1⟩

/-- C5, counterexample: the claim fails for negative counters —
`-1 < 10`, yet `setT1Resend(-1)` (and `setT2Resend(-1)`) does change the
resend counter: per the ZRtp.h contract a negative value means
"indefinite" resending and is stored, not rejected. -/
theorem setT1Resend_indefinite_counterexample :
    (-1 : Int) < 10 ∧
    setT1Resend (-1) {} ≠ ({} : ZrtpTimers) ∧
    (setT1Resend (-1) {}).t1Resend = -1 ∧
    (setT2Resend (-1) {}).t2Resend = -1 := by
  decide

/-- C5 (amended): counter values `c` with 0 ≤ c < 10 leave the T1 and T2
resend counters unchanged (rejected); a negative counter is accepted and
stored, meaning indefinite resending; capping values below 50 ms leave
the T1 cap unchanged and capping values below 150 ms leave the T2 cap
unchanged. -/
theorem timer_setters_reject_small (c : Int) (s : ZrtpTimers) :
    (0 ≤ c → c < 10 → setT1Resend c s = s ∧ setT2Resend c s = s) ∧
    (c < 0 → (setT1Resend c s).t1Resend = c ∧ (setT2Resend c s).t2Resend = c) ∧
    (c < 50 → setT1Capping c s = s) ∧
    (c < 150 → setT2Capping c s = s) := by
  refine ⟨fun h0 h10 => ?_, fun hneg => ?_, fun h50 => ?_, fun h150 => ?_⟩
  · have hn : ¬ c < 0 := by omega
    constructor <;> simp [setT1Resend, setT2Resend, hn, h10]
  · constructor <;> simp [setT1Resend, setT2Resend, hneg]
  · simp [setT1Capping, h50]
  · simp [setT2Capping, h150]

/-- C5, witness: the counter value 5 is rejected by `setT1Resend` on the
default timer configuration. -/
theorem timer_setters_reject_small_witness :
    (0 : Int) ≤ 5 ∧ (5 : Int) < 10 ∧ setT1Resend 5 {} = ({} : ZrtpTimers) :=
  ⟨by decide, by decide, ((timer_setters_reject_small 5 {}).1 (by decide) (by decide)).1⟩

end Zrtp
